import Mathlib

/-!
Verification of the SkyLifeguard invariant rule engine
(Source/SkyLifeguard/Private/LifeContracts.cpp and Public/LifeContracts.h).

The engine walks the reflected, Invariant-tagged fields of an object,
dispatches on the tag text and fatally asserts (checkf) on the first
violation.  The shallow embedding below renders

  - reflected property values as an inductive mirroring the FProperty
    subclass hierarchy (the constructor plays the role of the property's
    dynamic type, i.e. of which CastField succeeds),
  - FString comparison semantics of the engine (operator== and StartsWith
    are case-insensitive in Unreal; this is what the dispatcher uses),
  - checkf as a CheckResult value naming which assertion message fired,
  - machine integers as Int with explicit wrapping modulo 2 ^ width where
    the code performs static_cast, and doubles as exact rationals
    (representation error of individual literals is far below every
    margin any claim exercises),
  - the fatal first-failure policy as a left-biased sequencing operator.
-/

namespace SkyLifeguard

/-- ASCII lower-casing, as used by the case-insensitive TCHAR compares
(FCString::Stricmp) behind FString operator== and StartsWith. -/
def asciiToLower (c : Char) : Char :=
  if 'A' ≤ c ∧ c ≤ 'Z' then Char.ofNat (c.toNat + 32) else c

/-- FChar::IsWhitespace on the characters the engine can meet in tag text. -/
def isWhitespaceChar (c : Char) : Bool :=
  c == ' ' || c == '\t' || c == '\n' || c == '\r' || c == '\x0b' || c == '\x0c'

/-- FChar::IsDigit. -/
def isDigitChar (c : Char) : Bool :=
  '0' ≤ c && c ≤ '9'

/-- Characters of a string lower-cased, the basis of FString comparisons. -/
def lowerChars (s : String) : List Char :=
  s.data.map asciiToLower

/-- Unreal FString operator==, which compares case-insensitively. -/
def fstringEqCI (a b : String) : Bool :=
  lowerChars a == lowerChars b

/-- Unreal FString::StartsWith with its default ESearchCase::IgnoreCase. -/
def startsWithCI (pfx s : String) : Bool :=
  (lowerChars s).take (lowerChars pfx).length == lowerChars pfx

/-- FString::TrimStart. -/
def trimStart (cs : List Char) : List Char :=
  cs.dropWhile isWhitespaceChar

/-- FString::TrimStartAndEnd. -/
def trimStartAndEnd (cs : List Char) : List Char :=
  ((cs.dropWhile isWhitespaceChar).reverse.dropWhile isWhitespaceChar).reverse

/-- Split on every comma, keeping the chunks between occurrences. -/
def splitCommaAux : List Char → List Char → List (List Char)
  | [], acc => [acc.reverse]
  | c :: rest, acc =>
    if c == ',' then acc.reverse :: splitCommaAux rest []
    else splitCommaAux rest (c :: acc)

/-- FString::ParseIntoArray with delimiter a comma and InCullEmpty = true:
split on every comma and drop empty chunks. -/
def parseIntoArrayComma (cs : List Char) : List (List Char) :=
  (splitCommaAux cs []).filter (fun p => p.isEmpty = false)

/-- The SanitizeNumberString lambda of the Range branch: skip whitespace,
skip comma and underscore thousands separators, keep digits, sign, decimal
point and exponent markers, drop anything else. -/
def sanitizeNumberString (cs : List Char) : List Char :=
  cs.filter (fun c =>
    if isWhitespaceChar c then false
    else if c == ',' || c == '_' then false
    else isDigitChar c || c == '.' || c == '+' || c == '-' || c == 'e' || c == 'E')

/-- Value of a leading run of decimal digits (used by the numeric parsers). -/
def leadingDigitsVal (cs : List Char) : Int :=
  ((cs.takeWhile isDigitChar).foldl (fun a c => a * 10 + (c.toNat - '0'.toNat)) 0 : Nat)

/-- FCString::Atoi64 (strtoll-like): optional leading whitespace, optional
sign, then a run of digits; empty digit run gives 0.  Saturation of values
beyond 64 bits is not modelled; no modelled input approaches it. -/
def atoi64 (cs0 : List Char) : Int :=
  let cs := cs0.dropWhile isWhitespaceChar
  match cs with
  | [] => 0
  | c :: rest =>
    if c == '-' then - leadingDigitsVal rest
    else if c == '+' then leadingDigitsVal rest
    else leadingDigitsVal cs

/-- FCString::Strtoui64 in base 10 (strtoull-like): optional whitespace and
sign, digits, with a negated value reduced modulo 2 ^ 64.  Saturation beyond
64 bits is not modelled; no modelled input approaches it. -/
def strtoui64 (cs0 : List Char) : Int :=
  let cs := cs0.dropWhile isWhitespaceChar
  let signedVal : Int :=
    match cs with
    | [] => 0
    | c :: rest =>
      if c == '-' then - leadingDigitsVal rest
      else if c == '+' then leadingDigitsVal rest
      else leadingDigitsVal cs
  signedVal % ((2 : Int) ^ (64 : Nat))

/-- FCString::Atod (strtod-like), modelled over exact rationals: optional
whitespace and sign, integer digits, optional fraction after a decimal
point, optional exponent.  Hexadecimal floats and overflow to infinity are
not modelled; no tag in the repository uses them. -/
def atod (cs0 : List Char) : ℚ :=
  let cs := cs0.dropWhile isWhitespaceChar
  let signNeg : Bool :=
    match cs with
    | c :: _ => c == '-'
    | [] => false
  let cs1 : List Char :=
    match cs with
    | c :: rest => if c == '-' || c == '+' then rest else cs
    | [] => []
  let ipDigits := cs1.takeWhile isDigitChar
  let rest1 := cs1.dropWhile isDigitChar
  let fpDigits : List Char :=
    match rest1 with
    | c :: rest => if c == '.' then rest.takeWhile isDigitChar else []
    | [] => []
  let rest2 : List Char :=
    match rest1 with
    | c :: rest => if c == '.' then rest.dropWhile isDigitChar else rest1
    | [] => []
  let expVal : Int :=
    match rest2 with
    | c :: rest =>
      if c == 'e' || c == 'E' then
        match rest with
        | d :: rest3 =>
          if d == '-' then - leadingDigitsVal rest3
          else if d == '+' then leadingDigitsVal rest3
          else leadingDigitsVal rest
        | [] => 0
      else 0
    | [] => 0
  let mantissa : ℚ :=
    (leadingDigitsVal ipDigits : ℚ) +
      (leadingDigitsVal fpDigits : ℚ) / ((10 : ℚ) ^ fpDigits.length)
  let scaled : ℚ :=
    if 0 ≤ expVal then mantissa * (10 : ℚ) ^ expVal.toNat
    else mantissa / ((10 : ℚ) ^ (- expVal).toNat)
  if signNeg then - scaled else scaled

/-- State of a soft (deferred) reference, FSoftObjectPtr or FSoftClassPtr:
the path may be the empty sentinel, or name a target that is currently
unloaded, or name a target that is loaded and alive.  IsNull is true exactly
on the empty path; comparison of the pointer against nullptr goes through
TPersistentObjectPtr::Get, which resolves, so it is true exactly when the
target is currently loaded and alive. -/
inductive SoftState : Type where
  | nullPath
  | setUnloaded
  | setLoaded
deriving DecidableEq

/-- The dynamic FProperty subclass of a container element property, used by
IsPointerLikeProperty, which tests the property type, not a value. -/
inductive ElemKind : Type where
  | object
  | weak
  | softObject
  | softClass
  | classType
  | interface
  | nonPointer

/-- A container element value together with the flavour of its property;
the constructor plays the role of the element FProperty's dynamic type, so
the CastField chain of IsPointerPropertyValueValid becomes a match.  For
plain object, class and interface references only null versus non-null is
observable to the engine, for weak references only liveness of the target,
for soft references the SoftState. -/
inductive ElemVal : Type where
  | object (nonNull : Bool)
  | weak (targetAlive : Bool)
  | softObject (s : SoftState)
  | softClass (s : SoftState)
  | classType (nonNull : Bool)
  | interface (objNonNull : Bool)
  | nonPointer

/-- IsPointerLikeProperty of LifeContracts.cpp: does the element property
cast to one of the six pointer-like FProperty subclasses.  FClassProperty
derives from FObjectProperty and FSoftClassProperty from FSoftObjectProperty
in the engine, so the first matching cast for those is an earlier branch;
the answer is true either way. -/
def IsPointerLikeProperty : ElemKind → Bool
  | .object => true
  | .weak => true
  | .softObject => true
  | .softClass => true
  | .classType => true
  | .interface => true
  | .nonPointer => false

/-- IsPointerPropertyValueValid of LifeContracts.cpp, the per-subkind
pointer validity oracle applied to container elements.  In the source a
FClassProperty element is caught by the earlier FObjectProperty cast and a
FSoftClassProperty element by the earlier FSoftObjectProperty cast; the
check performed is the same one as in their own (dead) branches, so the
per-constructor rendering is faithful. -/
def IsPointerPropertyValueValid : ElemVal → Bool
  | .object nonNull => nonNull
  | .weak targetAlive => targetAlive
  | .softObject s => !(s == SoftState.nullPath)
  | .softClass s => !(s == SoftState.nullPath)
  | .classType nonNull => nonNull
  | .interface objNonNull => objNonNull
  | .nonPointer => true

/-- FOptionalProperty::GetValuePointerForRead: the address of the stored
value.  An address is rendered as the optional's contents; for a set
optional this is some value, i.e. a non-null address: the storage address of
a set optional is never the null pointer. -/
def getValuePointerForRead (contents : Option ElemVal) : Option ElemVal :=
  contents

/-- A reflected UFunction as far as the engine inspects it: its FName, its
FUNC_Const flag, its NumParms (the return value counts as one parameter
slot), whether its return property casts to FBoolProperty, the boolean the
function would write to the return slot when ProcessEvent runs, and whether
the function itself carries the Invariant metadata tag. -/
structure UEFunc : Type where
  name : String
  isConst : Bool
  numParms : Nat
  returnsBool : Bool
  result : Bool
  hasInvariantMeta : Bool

/-- The dynamic FProperty subclass of a tagged field together with its
current value; the constructor plays the role of the subclass, so each
CastField chain of CheckClassInvariants becomes a match.  A plain object
reference value (a UObject pointer) is an Option Nat: none is the null
pointer and some an object identifier, an address into the heap below;
objectProp also records the field's declared class
(FObjectProperty::PropertyClass), which the source never reads in the
Contract* branch.  Machine integer values are Int (stored values of a
w-bit field lie in the type's range; casts in the code are modelled with
explicit wrapping modulo 2 ^ w), float and double values are exact
rationals.  structProp stands for any remaining property flavour (struct,
enum, string, text, delegate), to which the engine applies no value
read. -/
inductive PropVal : Type where
  | objectProp (declaredCls : Nat) (v : Option Nat)
  | classProp (v : Option Nat)
  | weakProp (targetAlive : Bool)
  | softObjectProp (s : SoftState)
  | softClassProp (s : SoftState)
  | interfaceProp (objNonNull : Bool)
  | int8Prop (v : Int)
  | int16Prop (v : Int)
  | int32Prop (v : Int)
  | int64Prop (v : Int)
  | byteProp (v : Int)
  | uint16Prop (v : Int)
  | uint32Prop (v : Int)
  | uint64Prop (v : Int)
  | floatProp (v : ℚ)
  | doubleProp (v : ℚ)
  | nameProp (isNone : Bool)
  | boolProp (v : Bool)
  | arrayProp (inner : ElemKind) (elems : List ElemVal)
  | setProp (elemK : ElemKind) (elems : List ElemVal)
  | mapProp (keyK : ElemKind) (valK : ElemKind) (pairs : List (ElemVal × ElemVal))
  | optionalProp (valK : ElemKind) (contents : Option ElemVal)
  | structProp

/-- One Invariant-tagged field: the tag text returned by GetMetaData
together with the field's property flavour and current value. -/
structure TaggedProp : Type where
  tag : String
  val : PropVal

/-- A reflected UObject: its UClass (as an identifier), whether the global
IsValid predicate holds of it (alive, not pending kill), its
Invariant-tagged UPROPERTY fields in declaration order (the source loop
skips untagged fields, so they are omitted), and its UFunction list. -/
structure UEObjData : Type where
  cls : Nat
  alive : Bool
  props : List TaggedProp
  funcs : List UEFunc

/-- The object graph the engine walks: identifiers (pointer values) paired
with the objects they address, mirroring the C++ heap.  A non-null object
pointer of the running program always addresses an object; an identifier
missing from the heap is a dangling pointer, and dereferencing it is the
same undefined behaviour as dereferencing null.  Cycles of Contract*
references are representable, exactly as in the source. -/
abbrev Heap : Type := List (Nat × UEObjData)

/-- ValidateMemSafeContainer of LifeContracts.cpp.  TArray, TSet and TMap:
when the element (for maps: key and value) property is not pointer-like the
container is valid at once; otherwise every element is fed to the validity
oracle and the first invalid one fails the container (List.all has the same
value as the short-circuiting loop).  Sparse-index gaps of set and map
storage are not modelled: the element lists hold the live elements, which is
the IsValidIndex case of the source loops.  TOptional: unset is valid; set
with a non-pointer-like value property is valid; set with a pointer-like
value property null-checks only GetValuePointerForRead, the address of the
stored value, and never feeds the contained value to the oracle.  A
non-container property returns false (the dispatcher has already asserted
the property is a container before calling this). -/
def ValidateMemSafeContainer : PropVal → Bool
  | .arrayProp inner elems =>
    if IsPointerLikeProperty inner = false then true
    else elems.all IsPointerPropertyValueValid
  | .setProp elemK elems =>
    if IsPointerLikeProperty elemK = false then true
    else elems.all IsPointerPropertyValueValid
  | .mapProp keyK valK pairs =>
    let bKeyIsPointer := IsPointerLikeProperty keyK
    let bValueIsPointer := IsPointerLikeProperty valK
    if !bKeyIsPointer && !bValueIsPointer then true
    else
      pairs.all (fun kv =>
        (!bKeyIsPointer || IsPointerPropertyValueValid kv.fst) &&
        (!bValueIsPointer || IsPointerPropertyValueValid kv.snd))
  | .optionalProp valK contents =>
    (match contents with
    | none => true
    | some _ =>
      if IsPointerLikeProperty valK = false then true
      else
        match getValuePointerForRead contents with
        | none => false
        | some _ => true)
  | _ => false

/-- Which checkf / checkNoEntry assertion of CheckClassInvariants fired;
one constructor per distinct assertion message of the source. -/
inductive Msg : Type where
  | memSafeViolation
  | memSafeNonPointer
  | memSafeContainerNonContainer
  | memSafeContainerViolation
  | idViolation
  | gte0Violation
  | gt0Violation
  | lte0Violation
  | lt0Violation
  | rangeNoEntry
  | rangeFormatInvalid
  | rangeTwoParts
  | rangeIntegerBoundsRequired
  | rangeLowerLeUpperSigned
  | rangeLowerLeUpperFloat
  | rangeNonArithmetic
  | rangeViolation
  | nameViolation
  | nameNonFName
  | trueViolation
  | trueNonBool
  | falseViolation
  | falseNonBool
  | contractSameClass
  | contractViolation
  | contractNonPointer
  | fnNotFound
  | fnMustBeConst
  | fnMustHaveOneParm
  | fnMustReturnBool
  | customCheckFailed
  | methodMustBeConst
  | methodMustHaveNoParams
  | methodMustReturnBool
  | methodCheckFailed

/-- Outcome of a (fatal-on-failure) validation step: it passed, a checkf
with the given message fired, the code dereferenced a null or dangling
pointer (undefined behaviour, reached before any assertion could fire), or
the Contract star recursion exceeded every finite depth - the documented
stack-overflow hazard of a reference cycle. -/
inductive CheckResult : Type where
  | passed
  | failed (m : Msg)
  | nullDeref
  | stackOverflow

/-- Fatal first-failure sequencing: once a step has not passed, no later
step runs. -/
def seqResult : CheckResult → CheckResult → CheckResult
  | .passed, r => r
  | r, _ => r

/-- The eight machine integer property flavours of TestIntegerProperty. -/
inductive IntTy : Type where
  | i8
  | i16
  | i32
  | i64
  | u8
  | u16
  | u32
  | u64

/-- std::is_signed_v of the property's value type. -/
def IntTy.isSigned : IntTy → Bool
  | .i8 => true
  | .i16 => true
  | .i32 => true
  | .i64 => true
  | _ => false

/-- Bit width of the property's value type. -/
def IntTy.width : IntTy → Nat
  | .i8 => 8
  | .i16 => 16
  | .i32 => 32
  | .i64 => 64
  | .u8 => 8
  | .u16 => 16
  | .u32 => 32
  | .u64 => 64

/-- Conversion of an integer to a w-bit unsigned value: reduction
modulo 2 ^ w. -/
def wrapUnsigned (w : Nat) (z : Int) : Int :=
  z % ((2 : Int) ^ w)

/-- Two's-complement conversion of an integer to a w-bit signed value:
reduction modulo 2 ^ w into the range from - 2 ^ (w - 1) up to
2 ^ (w - 1) - 1. -/
def wrapSigned (w : Nat) (z : Int) : Int :=
  let m := z % ((2 : Int) ^ w)
  if m < (2 : Int) ^ (w - 1) then m else m - (2 : Int) ^ w

/-- static_cast of an int64/uint64 bound to the property's value type T. -/
def castToIntTy (ty : IntTy) (z : Int) : Int :=
  if ty.isSigned then wrapSigned ty.width z else wrapUnsigned ty.width z

/-- INDEX_NONE (-1) as it compares against a value of the given integer
type under the usual arithmetic conversions: against uint32 and uint64 the
literal -1 converts to the type's maximum; against the narrower types the
value promotes to int and compares against -1 itself. -/
def indexNoneAgainst : IntTy → Int
  | .u32 => (2 : Int) ^ (32 : Nat) - 1
  | .u64 => (2 : Int) ^ (64 : Nat) - 1
  | _ => -1

/-- TestIntegerProperty of LifeContracts.h: cast the property to each of
the eight integer property classes in turn and apply the predicate to the
typed value; any other property kind returns false. -/
def TestIntegerProperty (v : PropVal) (pred : IntTy → Int → Bool) : Bool :=
  match v with
  | .int8Prop x => pred .i8 x
  | .int16Prop x => pred .i16 x
  | .int32Prop x => pred .i32 x
  | .int64Prop x => pred .i64 x
  | .byteProp x => pred .u8 x
  | .uint16Prop x => pred .u16 x
  | .uint32Prop x => pred .u32 x
  | .uint64Prop x => pred .u64 x
  | _ => false

/-- TestArithmeticProperty of LifeContracts.h: first through
TestIntegerProperty, then the float and double casts; any other kind
returns false.  The single generic C++ lambda is rendered as its integer
instantiation and its floating instantiation. -/
def TestArithmeticProperty (v : PropVal) (predInt : IntTy → Int → Bool)
    (predFloat : ℚ → Bool) : Bool :=
  if TestIntegerProperty v predInt then true
  else
    match v with
    | .floatProp q => predFloat q
    | .doubleProp q => predFloat q
    | _ => false

/-- Result of the Range tag syntax processing, source lines 245-285: the
two inclusivity flags from the brackets and the two sanitized bound
texts. -/
structure RangeParsed : Type where
  lowerInc : Bool
  upperInc : Bool
  lowerT : List Char
  upperT : List Char

/-- Syntax processing of the Range branch on the tag text after the five
characters of the Range keyword: trim leading whitespace; checkNoEntry when
empty or the first character is neither an opening parenthesis nor an
opening square bracket; checkf at least two characters; the first character
decides lower inclusivity and the LAST character upper inclusivity (a last
character other than a closing square bracket, whatever it is, means
exclusive - it is not validated); the interior between first and last
characters splits on commas with empties culled and must give exactly two
parts; each part is trimmed and sanitized. -/
def parseRangeSpec (cs0 : List Char) : Except Msg RangeParsed :=
  let cs := trimStart cs0
  match cs with
  | [] => .error .rangeNoEntry
  | c :: rest =>
    if !(c == '(') && !(c == '[') then .error .rangeNoEntry
    else if (c :: rest).length < 2 then .error .rangeFormatInvalid
    else
      let upperBracket := rest.getLastD c
      let bLowerInclusive := c == '['
      let bUpperInclusive := upperBracket == ']'
      let inner := rest.dropLast
      match parseIntoArrayComma inner with
      | [p1, p2] =>
        .ok ⟨bLowerInclusive, bUpperInclusive,
          sanitizeNumberString (trimStartAndEnd p1),
          sanitizeNumberString (trimStartAndEnd p2)⟩
      | _ => .error .rangeTwoParts

/-- bBoundsHaveFloatMarker of the Range branch: either sanitized bound
contains a decimal point or an exponent marker. -/
def hasFloatMarker (cs : List Char) : Bool :=
  cs.contains '.' || cs.contains 'e' || cs.contains 'E'

/-- The integer path of the Range branch (source lines 294-328), reached
when the property casts to one of the eight integer property classes.  The
checkf against float-marked bounds comes first.  Then, inside the
TestIntegerProperty lambda: for a signed value type the bounds parse with
Atoi64 and lower is checkf-asserted to be at most upper before the
comparison; for an unsigned value type the bounds parse with Strtoui64 and
no such assertion exists.  Either way the bounds are cast to the property's
value type and the value compared with the two independent inclusivity
flags; a failed comparison fires the Range-violation checkf of line 350. -/
def rangeIntegerBranch (ty : IntTy) (x : Int) (rp : RangeParsed)
    (floatMarker : Bool) : CheckResult :=
  if floatMarker then .failed .rangeIntegerBoundsRequired
  else if ty.isSigned then
    let lowerI := atoi64 rp.lowerT
    let upperI := atoi64 rp.upperT
    if lowerI ≤ upperI then
      let lowerBound := castToIntTy ty lowerI
      let upperBound := castToIntTy ty upperI
      let lowerOk := if rp.lowerInc then decide (lowerBound ≤ x) else decide (lowerBound < x)
      let upperOk := if rp.upperInc then decide (x ≤ upperBound) else decide (x < upperBound)
      if lowerOk && upperOk then .passed else .failed .rangeViolation
    else .failed .rangeLowerLeUpperSigned
  else
    let lowerI := strtoui64 rp.lowerT
    let upperI := strtoui64 rp.upperT
    let lowerBound := castToIntTy ty lowerI
    let upperBound := castToIntTy ty upperI
    let lowerOk := if rp.lowerInc then decide (lowerBound ≤ x) else decide (lowerBound < x)
    let upperOk := if rp.upperInc then decide (x ≤ upperBound) else decide (x < upperBound)
    if lowerOk && upperOk then .passed else .failed .rangeViolation

/-- FMath::Max on doubles. -/
def fmax (a b : ℚ) : ℚ :=
  if a ≥ b then a else b

/-- FMath::Abs on doubles. -/
def fabs (a : ℚ) : ℚ :=
  if a < 0 then -a else a

/-- FMath::Clamp: (X < Min) gives Min, else (X < Max) gives X, else Max. -/
def fclamp (x lo hi : ℚ) : ℚ :=
  if x < lo then lo else if x < hi then x else hi

/-- The comparison lambda of the float path (source lines 335-344): widen
the bounds outward by the adaptive epsilon
clamp(max(1, abs lower, abs upper, abs value) * 1e-6, 1e-10, 1e-3) and test
the two inclusivity flags against lower - epsilon and upper + epsilon. -/
def floatRangePred (lowerD upperD : ℚ) (bLowerInclusive bUpperInclusive : Bool)
    (value : ℚ) : Bool :=
  let scale := fmax 1 (fmax (fabs lowerD) (fmax (fabs upperD) (fabs value)))
  let eps := fclamp (scale * (1 / 1000000)) (1 / 10000000000) (1 / 1000)
  let lowerOk :=
    if bLowerInclusive then decide (value ≥ lowerD - eps) else decide (value > lowerD - eps)
  let upperOk :=
    if bUpperInclusive then decide (value ≤ upperD + eps) else decide (value < upperD + eps)
  lowerOk && upperOk

/-- The float path of the Range branch (source lines 330-345), reached when
the property casts to FFloatProperty or FDoubleProperty: parse both bounds
with Atod, checkf-assert lower at most upper, then run the epsilon-widened
comparison through TestArithmeticProperty; a failed comparison fires the
Range-violation checkf of line 350. -/
def rangeFloatBranch (v : PropVal) (rp : RangeParsed) : CheckResult :=
  let lowerD := atod rp.lowerT
  let upperD := atod rp.upperT
  if lowerD ≤ upperD then
    if TestArithmeticProperty v
        (fun _ x => floatRangePred lowerD upperD rp.lowerInc rp.upperInc (x : ℚ))
        (fun q => floatRangePred lowerD upperD rp.lowerInc rp.upperInc q) then
      .passed
    else .failed .rangeViolation
  else .failed .rangeLowerLeUpperFloat

/-- The adaptive epsilon exactly as the specification words it, for the
refinement comparison against the code path:
clamp(max(1, abs lower, abs upper, abs value) * 1e-6, 1e-10, 1e-3), written
with the library min, max and absolute value.  This definition follows the
spec's words, not the source; the source formula is the one inside
floatRangePred. -/
def epsilonSpec (L U v : ℚ) : ℚ :=
  min (max ((max 1 (max |L| (max |U| |v|))) * (1 / 1000000)) (1 / 10000000000)) (1 / 1000)

/-- UClass::FindFunctionByName: the tag text becomes an FName and FName
comparison is case-insensitive. -/
def findFunctionByName (funcs : List UEFunc) (n : String) : Option UEFunc :=
  funcs.find? (fun f => fstringEqCI f.name n)

/-- The custom-predicate invocation of the tag-fallback path, source lines
397-412, applied to a found function: checkf FUNC_Const, checkf NumParms is
exactly one (the return slot), THEN ProcessEvent runs, and only after the
invocation the return property is checkf-required to be a FBoolProperty; a
false result fires the custom-check-failed checkf.  The second component
records whether ProcessEvent was reached, which the source makes observable
by invoking the object's method. -/
def invokeFieldPathFunction (f : UEFunc) : CheckResult × Bool :=
  if f.isConst = false then (.failed .fnMustBeConst, false)
  else if !(f.numParms == 1) then (.failed .fnMustHaveOneParm, false)
  else
    if f.returnsBool = false then (.failed .fnMustReturnBool, true)
    else if f.result then (.passed, true)
    else (.failed .customCheckFailed, true)

/-- The whole tag-fallback path, source lines 393-413: look the tag text up
as a function name, checkf it was found, then invoke as above. -/
def customPathCheck (funcs : List UEFunc) (tag : String) : CheckResult × Bool :=
  match findFunctionByName funcs tag with
  | none => (.failed .fnNotFound, false)
  | some f => invokeFieldPathFunction f

/-- The method-tagged invariant path, source lines 422-436, for one
function carrying the Invariant metadata: checkf FUNC_Const, checkf
NumParms, checkf bool return - all three BEFORE ProcessEvent runs here -
then invoke and fail on a false result.  The second component records
whether ProcessEvent was reached. -/
def checkTaggedFunc (f : UEFunc) : CheckResult × Bool :=
  if f.isConst = false then (.failed .methodMustBeConst, false)
  else if !(f.numParms == 1) then (.failed .methodMustHaveNoParams, false)
  else if f.returnsBool = false then (.failed .methodMustReturnBool, false)
  else if f.result then (.passed, true)
  else (.failed .methodCheckFailed, true)

/-- The function loop of CheckClassInvariants, source lines 415-438: every
function with the Invariant metadata is checked in order, fatally stopping
at the first failure. -/
def checkFuncsList : List UEFunc → CheckResult
  | [] => .passed
  | f :: rest =>
    if f.hasInvariantMeta then seqResult (checkTaggedFunc f).fst (checkFuncsList rest)
    else checkFuncsList rest

/-- The per-field rule dispatch of CheckClassInvariants, source lines
170-414, for one Invariant-tagged field of an object of class selfCls whose
class carries the function list funcs.  The tag comparisons are Unreal
FString operator== and StartsWith, which are case-insensitive.  The branch
order is that of the source: MemSafe, MemSafeContainer, ID, Gte0, Gt0,
Lte0, Lt0, the Range prefix, name, True, False, Contract star, and the
custom-function fallback.  recurse is the recursive CheckClassInvariants
call of the Contract star branch.

MemSafe notes: the FObjectProperty cast also catches FClassProperty and the
FSoftObjectProperty cast also catches FSoftClassProperty (engine subclass
relations); the dead later branches perform the same checks, so the
per-constructor rendering is faithful.  For a soft reference the source
compares the FSoftObjectPtr against nullptr, which resolves the path, so it
requires a currently loaded, alive target - unlike the IsNull test of the
container oracle.

Contract star notes: the source reads the field value and immediately calls
GetClass() on it for the same-class guard, BEFORE the IsValid checkf and
the null test; a null value is therefore dereferenced (nullDeref), not
reported.  The guard compares the runtime class of the referent, not the
field's declared class, which is ignored.  A TSubclassOf field would also
be caught by the FObjectProperty cast in the source; its referent is then a
UClass object, whose own class is the engine metaclass, distinct from every
reflected game class modelled here, and which carries no Invariant-tagged
fields, so guard and recursion trivially pass; no claim exercises that
case. -/
def checkPropDispatch (recurse : Nat → CheckResult) (heap : Heap) (selfCls : Nat)
    (funcs : List UEFunc) : TaggedProp → CheckResult
  | .mk tag v =>
    if fstringEqCI tag "MemSafe" then
      match v with
      | .objectProp _ ov => if ov.isSome then .passed else .failed .memSafeViolation
      | .classProp cv => if cv.isSome then .passed else .failed .memSafeViolation
      | .softObjectProp s =>
        if s == SoftState.setLoaded then .passed else .failed .memSafeViolation
      | .weakProp targetAlive =>
        if targetAlive then .passed else .failed .memSafeViolation
      | .softClassProp s =>
        if s == SoftState.setLoaded then .passed else .failed .memSafeViolation
      | .interfaceProp objNonNull =>
        if objNonNull then .passed else .failed .memSafeViolation
      | _ => .failed .memSafeNonPointer
    else if fstringEqCI tag "MemSafeContainer" then
      let bIsContainer :=
        match v with
        | .arrayProp _ _ => true
        | .setProp _ _ => true
        | .mapProp _ _ _ => true
        | .optionalProp _ _ => true
        | _ => false
      if bIsContainer = false then .failed .memSafeContainerNonContainer
      else if ValidateMemSafeContainer v then .passed
      else .failed .memSafeContainerViolation
    else if fstringEqCI tag "ID" then
      if TestIntegerProperty v (fun ty x => decide (x ≠ indexNoneAgainst ty)) then .passed
      else .failed .idViolation
    else if fstringEqCI tag "Gte0" then
      if TestArithmeticProperty v (fun _ x => decide (x ≥ 0)) (fun q => decide (q ≥ 0)) then
        .passed
      else .failed .gte0Violation
    else if fstringEqCI tag "Gt0" then
      if TestArithmeticProperty v (fun _ x => decide (x > 0)) (fun q => decide (q > 0)) then
        .passed
      else .failed .gt0Violation
    else if fstringEqCI tag "Lte0" then
      if TestArithmeticProperty v (fun _ x => decide (x ≤ 0)) (fun q => decide (q ≤ 0)) then
        .passed
      else .failed .lte0Violation
    else if fstringEqCI tag "Lt0" then
      if TestArithmeticProperty v (fun _ x => decide (x < 0)) (fun q => decide (q < 0)) then
        .passed
      else .failed .lt0Violation
    else if startsWithCI "Range" tag then
      match parseRangeSpec (tag.data.drop 5) with
      | .error m => .failed m
      | .ok rp =>
        let floatMarker := hasFloatMarker rp.lowerT || hasFloatMarker rp.upperT
        match v with
        | .int8Prop x => rangeIntegerBranch .i8 x rp floatMarker
        | .int16Prop x => rangeIntegerBranch .i16 x rp floatMarker
        | .int32Prop x => rangeIntegerBranch .i32 x rp floatMarker
        | .int64Prop x => rangeIntegerBranch .i64 x rp floatMarker
        | .byteProp x => rangeIntegerBranch .u8 x rp floatMarker
        | .uint16Prop x => rangeIntegerBranch .u16 x rp floatMarker
        | .uint32Prop x => rangeIntegerBranch .u32 x rp floatMarker
        | .uint64Prop x => rangeIntegerBranch .u64 x rp floatMarker
        | .floatProp q => rangeFloatBranch (.floatProp q) rp
        | .doubleProp q => rangeFloatBranch (.doubleProp q) rp
        | _ => .failed .rangeNonArithmetic
    else if fstringEqCI tag "name" then
      match v with
      | .nameProp isNone => if isNone then .failed .nameViolation else .passed
      | _ => .failed .nameNonFName
    else if fstringEqCI tag "True" then
      match v with
      | .boolProp b => if b then .passed else .failed .trueViolation
      | _ => .failed .trueNonBool
    else if fstringEqCI tag "False" then
      match v with
      | .boolProp b => if b then .failed .falseViolation else .passed
      | _ => .failed .falseNonBool
    else if fstringEqCI tag "Contract*" then
      match v with
      | .objectProp _ ov =>
        match ov with
        | none => .nullDeref
        | some oid =>
          match heap.lookup oid with
          | none => .nullDeref
          | some refObj =>
            if refObj.cls == selfCls then .failed .contractSameClass
            else if refObj.alive = false then .failed .contractViolation
            else recurse oid
      | .classProp cv =>
        match cv with
        | none => .nullDeref
        | some _ => .passed
      | _ => .failed .contractNonPointer
    else
      (customPathCheck funcs tag).fst

/-- The validation pass with an explicit recursion-depth budget: one unit
is spent per object entered through a Contract star field.  The source
recursion is unbounded; on an acyclic heap no reference path repeats an
object, so the nesting depth is at most the number of heap objects and the
budget of CheckClassInvariants below never runs out; an exhausted budget
therefore means a reference cycle, on which the source overflows the call
stack - the documented hazard - rendered as the stackOverflow outcome.  A
top-level identifier missing from the heap is a dangling pointer and its
dereference undefined behaviour. -/
def checkObjFuel (heap : Heap) : Nat → Nat → CheckResult
  | 0, _ => .stackOverflow
  | n + 1, oid =>
    match heap.lookup oid with
    | none => .nullDeref
    | some od =>
      seqResult
        (od.props.foldr
          (fun p acc =>
            seqResult (checkPropDispatch (checkObjFuel heap n) heap od.cls od.funcs p) acc)
          .passed)
        (checkFuncsList od.funcs)

/-- Debug::CheckClassInvariants of LifeContracts.cpp: the full fatal
validation pass over the object at the given address - every
Invariant-tagged field in declaration order, then every Invariant-tagged
function - with a depth budget exceeding any acyclic reference path of the
heap. -/
def CheckClassInvariants (heap : Heap) (oid : Nat) : CheckResult :=
  checkObjFuel heap (heap.length + 1) oid

/-- The processing CheckClassInvariants applies to one Invariant-tagged
field of an object of class selfCls with function list funcs; the Contract
star branch recurses with the full pass, as in the source. -/
def checkOneProp (heap : Heap) (selfCls : Nat) (funcs : List UEFunc)
    (p : TaggedProp) : CheckResult :=
  checkPropDispatch (CheckClassInvariants heap) heap selfCls funcs p

/-! Evaluation lemmas for the numeric parsers and the two range branches,
shared by the claim theorems below. -/

theorem atoi64_zero : atoi64 ['0'] = 0 := rfl

theorem atoi64_ten : atoi64 ['1', '0'] = 10 := rfl

theorem atoi64_hundred : atoi64 ['1', '0', '0'] = 100 := rfl

theorem atoi64_thousand : atoi64 ['1', '0', '0', '0'] = 1000 := rfl

theorem atoi64_twoThousand : atoi64 ['2', '0', '0', '0'] = 2000 := rfl

theorem castToIntTy_i32_zero : castToIntTy .i32 0 = 0 := rfl

theorem castToIntTy_i32_ten : castToIntTy .i32 10 = 10 := rfl

theorem castToIntTy_i32_hundred : castToIntTy .i32 100 = 100 := rfl

theorem castToIntTy_i32_thousand : castToIntTy .i32 1000 = 1000 := rfl

theorem castToIntTy_i32_twoThousand : castToIntTy .i32 2000 = 2000 := rfl

theorem strtoui64_ten : strtoui64 ['1', '0'] = 10 := rfl

theorem strtoui64_zero : strtoui64 ['0'] = 0 := rfl

/-- The signed integer branch on sanitized bounds 0 and 100 with a
half-open bracket pair accepts exactly 0 up to 99. -/
theorem range_i32_0_100 (x : Int) :
    rangeIntegerBranch .i32 x ⟨true, false, ['0'], ['1', '0', '0']⟩ false =
      if 0 ≤ x ∧ x < 100 then .passed else .failed .rangeViolation := by
  simp only [rangeIntegerBranch, atoi64_zero, atoi64_hundred, castToIntTy_i32_zero,
    castToIntTy_i32_hundred, IntTy.isSigned]
  norm_num

/-- The signed integer branch on sanitized bounds 1000 and 2000 with a
lower-exclusive, upper-inclusive bracket pair. -/
theorem range_i32_1000_2000 (x : Int) :
    rangeIntegerBranch .i32 x ⟨false, true, ['1', '0', '0', '0'], ['2', '0', '0', '0']⟩ false =
      if 1000 < x ∧ x ≤ 2000 then .passed else .failed .rangeViolation := by
  simp only [rangeIntegerBranch, atoi64_thousand, atoi64_twoThousand,
    castToIntTy_i32_thousand, castToIntTy_i32_twoThousand, IntTy.isSigned]
  norm_num

/-- The signed integer branch on bounds 0 and 10, both inclusive. -/
theorem range_i32_0_10_closed (x : Int) :
    rangeIntegerBranch .i32 x ⟨true, true, ['0'], ['1', '0']⟩ false =
      if 0 ≤ x ∧ x ≤ 10 then .passed else .failed .rangeViolation := by
  simp only [rangeIntegerBranch, atoi64_zero, atoi64_ten, castToIntTy_i32_zero,
    castToIntTy_i32_ten, IntTy.isSigned]
  norm_num

/-- The signed integer branch on bounds 0 and 10, both exclusive. -/
theorem range_i32_0_10_open (x : Int) :
    rangeIntegerBranch .i32 x ⟨false, false, ['0'], ['1', '0']⟩ false =
      if 0 < x ∧ x < 10 then .passed else .failed .rangeViolation := by
  simp only [rangeIntegerBranch, atoi64_zero, atoi64_ten, castToIntTy_i32_zero,
    castToIntTy_i32_ten, IntTy.isSigned]
  norm_num

/-- The unsigned integer branch on the inverted bounds 10 and 0 never
asserts the bound order; the empty interval just fails every value as a
range violation. -/
theorem range_u32_10_0 (x : Int) :
    rangeIntegerBranch .u32 x ⟨true, true, ['1', '0'], ['0']⟩ false =
      .failed .rangeViolation := by
  have h1 : castToIntTy .u32 10 = 10 := rfl
  have h2 : castToIntTy .u32 0 = 0 := rfl
  simp only [rangeIntegerBranch, strtoui64_ten, strtoui64_zero, IntTy.isSigned, h1, h2]
  norm_num
  omega

theorem fmax_eq_max (a b : ℚ) : fmax a b = max a b := by
  unfold fmax
  rcases lt_or_ge a b with h | h
  · rw [if_neg (not_le.mpr h), max_eq_right h.le]
  · rw [if_pos h, max_eq_left h]

theorem fabs_eq_abs (a : ℚ) : fabs a = |a| := by
  unfold fabs
  rcases lt_or_ge a 0 with h | h
  · rw [if_pos h, abs_of_neg h]
  · rw [if_neg (not_lt.mpr h), abs_of_nonneg h]

theorem fclamp_eq_min_max (x lo hi : ℚ) (h : lo ≤ hi) :
    fclamp x lo hi = min (max x lo) hi := by
  unfold fclamp
  rcases lt_or_ge x lo with h1 | h1
  · rw [if_pos h1, max_eq_right h1.le, min_eq_left h]
  · rw [if_neg (not_lt.mpr h1), max_eq_left h1]
    rcases lt_or_ge x hi with h2 | h2
    · rw [if_pos h2, min_eq_left h2.le]
    · rw [if_neg (not_lt.mpr h2), min_eq_right h2]

theorem atod_zeroPointZero : atod ['0', '.', '0'] = 0 := by
  change (((0 : Int) : ℚ) + ((0 : Int) : ℚ) / (10 : ℚ) ^ (1 : Nat)) * (10 : ℚ) ^ ((0 : Int)).toNat = 0
  norm_num

theorem atod_onePointZero : atod ['1', '.', '0'] = 1 := by
  change (((1 : Int) : ℚ) + ((0 : Int) : ℚ) / (10 : ℚ) ^ (1 : Nat)) * (10 : ℚ) ^ ((0 : Int)).toNat = 1
  norm_num

theorem atod_twoPointZero : atod ['2', '.', '0'] = 2 := by
  change (((2 : Int) : ℚ) + ((0 : Int) : ℚ) / (10 : ℚ) ^ (1 : Nat)) * (10 : ℚ) ^ ((0 : Int)).toNat = 2
  norm_num

/-- The full dispatcher on a double field tagged with the range from 0.0 to
1.0 reduces to the epsilon-widened comparison at bounds 0 and 1. -/
theorem floatPipe_0_1 (q : ℚ) : checkOneProp [] 1 [] (.mk "Range[0.0,1.0]" (.doubleProp q)) =
    if floatRangePred 0 1 true true q then .passed else .failed .rangeViolation := by
  have h : checkOneProp [] 1 [] (.mk "Range[0.0,1.0]" (.doubleProp q)) =
      rangeFloatBranch (.doubleProp q) ⟨true, true, "0.0".data, "1.0".data⟩ := rfl
  rw [h]
  simp only [rangeFloatBranch, atod_zeroPointZero, atod_onePointZero,
    TestArithmeticProperty, TestIntegerProperty]
  norm_num

/-! The claim theorems. -/

/-- Claim C1: the claim says a Contract-star field whose declared type
equals the containing object's own type raises a configuration error
before any data of the field is inspected, even when the field is null.
The code instead reads the field value and calls GetClass() on it before
any null or validity test: with a null value the very first step of the
branch dereferences a null pointer, for every heap, every class identifier
and every function list, so no configuration error is ever raised and the
declared class recorded on the field is never consulted. -/
theorem C1_contract_same_type_null_value_derefs (heap : Heap) (c : Nat) (fs : List UEFunc) :
    checkOneProp heap c fs (.mk "Contract*" (.objectProp c none)) = .nullDeref := rfl

/-- Claim C2, counterexample: parsing the tag with the embedded thousands
separator comma does not succeed with bounds 1000 and 2000 as the claim
states; the interior splits into three comma-separated parts before any
sanitization, so the two-part checkf fires as a configuration error. -/
theorem C2_range_split_counterexample :
    checkOneProp [] 1 [] (.mk "Range(1_000, 2,000]" (.int32Prop 1500)) =
      .failed .rangeTwoParts := rfl

/-- Claim C2, amended: parsing the bracket text of the range from 0
inclusive to 100 exclusive yields lowerInclusive true, upperInclusive
false and bounds 0 and 100; but a comma thousands separator inside a bound
is rejected at the split-on-comma step, which runs before sanitization and
sees three parts; only the underscore separator survives to sanitization,
so the underscore variant of the tag parses to bounds 1000 and 2000 and
validates exactly the half-open interval. -/
theorem C2_range_parsing_amended :
    parseRangeSpec "[0,100)".data = .ok ⟨true, false, ['0'], ['1', '0', '0']⟩ ∧
    atoi64 ['0'] = 0 ∧ atoi64 ['1', '0', '0'] = 100 ∧
    parseIntoArrayComma "1_000, 2,000".data =
      [['1', '_', '0', '0', '0'], [' ', '2'], ['0', '0', '0']] ∧
    parseRangeSpec "(1_000, 2,000]".data = .error .rangeTwoParts ∧
    sanitizeNumberString ['1', '_', '0', '0', '0'] = ['1', '0', '0', '0'] ∧
    (∀ x : Int, checkOneProp [] 1 [] (.mk "Range(1_000, 2_000]" (.int32Prop x)) =
      if 1000 < x ∧ x ≤ 2000 then .passed else .failed .rangeViolation) := by
  refine ⟨rfl, rfl, rfl, rfl, rfl, rfl, ?_⟩
  intro x
  have h : checkOneProp [] 1 [] (.mk "Range(1_000, 2_000]" (.int32Prop x)) =
      rangeIntegerBranch .i32 x ⟨false, true, ['1', '0', '0', '0'], ['2', '0', '0', '0']⟩ false := rfl
  rw [h, range_i32_1000_2000]

/-- Claim C3: the claim (and the code's own documentation) says a set
optional holding a null object pointer is a violation, because the
contained value is judged by the pointer-validity oracle.  The code never
feeds the contained value to the oracle: it only null-checks the storage
address returned by GetValuePointerForRead, which is non-null for every
set optional, so a set optional holding a null object pointer passes the
whole MemSafeContainer check even though the oracle rejects that value;
the unset-optional half of the claim does hold. -/
theorem C3_optional_null_pointer_passes :
    checkOneProp [] 1 [] (.mk "MemSafeContainer" (.optionalProp .object (some (.object false)))) =
      .passed ∧
    IsPointerPropertyValueValid (.object false) = false ∧
    ValidateMemSafeContainer (.optionalProp .object none) = true :=
  ⟨rfl, rfl, rfl⟩

/-- Claim C4, counterexample: a range tag whose last character is a
closing curly brace, neither a closing parenthesis nor a closing square
bracket, is not rejected; it parses successfully and is silently treated
as an exclusive upper bound, so 50 passes and the upper bound 100 itself
fails as a data violation. -/
theorem C4_last_char_counterexample :
    checkOneProp [] 1 [] (.mk "Range[0,100\x7d" (.int32Prop 50)) = .passed ∧
    checkOneProp [] 1 [] (.mk "Range[0,100\x7d" (.int32Prop 100)) = .failed .rangeViolation :=
  ⟨rfl, rfl⟩

/-- Claim C4, amended: after trimming leading whitespace the parser does
require the first character to be an opening parenthesis or an opening
square bracket (configuration error otherwise, also for an empty
remainder) and requires at least two characters; but the last character is
never validated: whatever it is, a closing square bracket means an
inclusive upper bound and ANY other final character is treated as an
exclusive upper bound, with the interior taken between the first and last
characters. -/
theorem C4_bracket_validation_amended :
    (∀ c : Char, ¬(c = '(') → ¬(c = '[') →
      parseRangeSpec (c :: "0,100]".data) = .error .rangeNoEntry) ∧
    (∀ d : Char, parseRangeSpec ("[0,100".data ++ [d]) =
      .ok ⟨true, d == ']', ['0'], ['1', '0', '0']⟩) ∧
    parseRangeSpec [] = .error .rangeNoEntry ∧
    parseRangeSpec ['('] = .error .rangeFormatInvalid := by
  refine ⟨?_, fun d => rfl, rfl, rfl⟩
  intro c h1 h2
  by_cases hw : isWhitespaceChar c = true
  · have hts : trimStart (c :: "0,100]".data) = trimStart "0,100]".data := by
      simp [trimStart, List.dropWhile, hw]
    have h0 : trimStart "0,100]".data = "0,100]".data := rfl
    simp only [parseRangeSpec, hts, h0]
    rfl
  · have hts : trimStart (c :: "0,100]".data) = c :: "0,100]".data := by
      simp [trimStart, List.dropWhile, hw]
    have hb1 : (c == '(') = false := by
      simp [h1]
    have hb2 : (c == '[') = false := by
      simp [h2]
    simp [parseRangeSpec, hts, hb1, hb2]

/-- Witness for the amended claim C4, at the concrete first character x
and the concrete last character closing-curly-brace. -/
theorem C4_bracket_validation_amended_witness :
    parseRangeSpec ('x' :: "0,100]".data) = .error .rangeNoEntry ∧
    parseRangeSpec ("[0,100".data ++ ['\x7d']) =
      .ok ⟨true, '\x7d' == ']', ['0'], ['1', '0', '0']⟩ :=
  ⟨C4_bracket_validation_amended.1 'x' (by decide) (by decide),
   C4_bracket_validation_amended.2.1 '\x7d'⟩

/-- Claim C5, counterexample: the dispatcher does not resolve fixed rule
keywords by case-sensitive exact match.  The tag NAME in upper case still
dispatches to the identifier rule (a set name passes instead of falling
through to the function-lookup configuration error), and the tag memsafe
in lower case still dispatches to the MemSafe rule. -/
theorem C5_case_sensitivity_counterexample :
    checkOneProp [] 1 [] (.mk "NAME" (.nameProp false)) = .passed ∧
    checkOneProp [] 1 [] (.mk "memsafe" (.objectProp 0 none)) = .failed .memSafeViolation :=
  ⟨rfl, rfl⟩

/-- Claim C5, amended: the dispatcher compares tags with the
case-insensitive FString equality, and the literal it compares the
identifier rule against is lower-case name; the tag Name matches it
case-insensitively, so a field of identifier kind tagged Name does apply
the empty-identifier-sentinel check - violation exactly on the empty
sentinel, a non-identifier field a configuration error - and never
consults the function list. -/
theorem C5_name_dispatch_amended :
    checkOneProp [] 1 [] (.mk "Name" (.nameProp true)) = .failed .nameViolation ∧
    checkOneProp [] 1 [] (.mk "Name" (.nameProp false)) = .passed ∧
    checkOneProp [] 1 [] (.mk "name" (.nameProp true)) = .failed .nameViolation ∧
    checkOneProp [] 1 [] (.mk "Name" .structProp) = .failed .nameNonFName ∧
    fstringEqCI "Name" "name" = true ∧
    (∀ fs : List UEFunc, checkOneProp [] 1 fs (.mk "Name" (.nameProp true)) = .failed .nameViolation) :=
  ⟨rfl, rfl, rfl, rfl, rfl, fun _ => rfl⟩

/-- Claim C6, counterexample: a set-but-unloaded soft reference is NOT
judged the same way on the two paths.  The container element oracle
accepts it (not the empty-path sentinel), but the direct MemSafe path
compares the soft pointer against nullptr, which resolves the target, so
the same state fails there as a violation. -/
theorem C6_soft_reference_counterexample :
    checkOneProp [] 1 [] (.mk "MemSafe" (.softObjectProp .setUnloaded)) =
      .failed .memSafeViolation ∧
    IsPointerPropertyValueValid (.softObject .setUnloaded) = true ∧
    ValidateMemSafeContainer (.arrayProp .softObject [.softObject .setUnloaded]) = true :=
  ⟨rfl, rfl, rfl⟩

/-- Claim C6, amended: on the container element path a soft reference
(object or class) is valid exactly when it is not the empty-path sentinel,
and an unloaded target does not matter; on the direct MemSafe path the
code instead requires the reference to currently resolve to a live loaded
object, so a set-but-unloaded soft reference passes the container path and
fails the direct path. -/
theorem C6_soft_reference_amended (s : SoftState) :
    IsPointerPropertyValueValid (.softObject s) = !(s == SoftState.nullPath) ∧
    IsPointerPropertyValueValid (.softClass s) = !(s == SoftState.nullPath) ∧
    checkOneProp [] 1 [] (.mk "MemSafe" (.softObjectProp s)) =
      (if s = .setLoaded then .passed else .failed .memSafeViolation) ∧
    checkOneProp [] 1 [] (.mk "MemSafe" (.softClassProp s)) =
      (if s = .setLoaded then .passed else .failed .memSafeViolation) := by
  cases s <;> exact ⟨rfl, rfl, rfl, rfl⟩

/-- Claim C7, counterexample: with inverted bounds on an unsigned field
the engine does not raise the lower-at-most-upper configuration error the
claim asserts for both signednesses; it silently compares against the
empty interval and reports an ordinary range data violation, while the
same tag on a signed field does hit the assertion. -/
theorem C7_unsigned_assert_counterexample :
    checkOneProp [] 1 [] (.mk "Range[10,0]" (.uint32Prop 5)) = .failed .rangeViolation ∧
    checkOneProp [] 1 [] (.mk "Range[10,0]" (.int32Prop 5)) = .failed .rangeLowerLeUpperSigned :=
  ⟨rfl, rfl⟩

/-- Claim C7, amended: bounds are parsed as 64-bit integers matching the
field's signedness, but lower at most upper is asserted only on the signed
path; on the unsigned path no assertion exists and an inverted-bounds tag
just fails every value as a data violation.  The comparison itself is
exact integer comparison under the two independent inclusivity flags: the
closed range from 0 to 10 accepts exactly 0 through 10 (so 0 and 10 pass,
-1 and 11 fail) and the open range from 0 to 10 accepts exactly 1 through
9 (so 0 and 10 fail). -/
theorem C7_integer_range_amended :
    (∀ x : Int, checkOneProp [] 1 [] (.mk "Range[10,0]" (.uint32Prop x)) =
      .failed .rangeViolation) ∧
    (∀ x : Int, checkOneProp [] 1 [] (.mk "Range[10,0]" (.int32Prop x)) =
      .failed .rangeLowerLeUpperSigned) ∧
    (∀ x : Int, checkOneProp [] 1 [] (.mk "Range[0,10]" (.int32Prop x)) =
      if 0 ≤ x ∧ x ≤ 10 then .passed else .failed .rangeViolation) ∧
    (∀ x : Int, checkOneProp [] 1 [] (.mk "Range(0,10)" (.int32Prop x)) =
      if 0 < x ∧ x < 10 then .passed else .failed .rangeViolation) ∧
    checkOneProp [] 1 [] (.mk "Range[0,10]" (.int32Prop 0)) = .passed ∧
    checkOneProp [] 1 [] (.mk "Range[0,10]" (.int32Prop 10)) = .passed ∧
    checkOneProp [] 1 [] (.mk "Range[0,10]" (.int32Prop (-1))) = .failed .rangeViolation ∧
    checkOneProp [] 1 [] (.mk "Range[0,10]" (.int32Prop 11)) = .failed .rangeViolation ∧
    checkOneProp [] 1 [] (.mk "Range(0,10)" (.int32Prop 0)) = .failed .rangeViolation ∧
    checkOneProp [] 1 [] (.mk "Range(0,10)" (.int32Prop 10)) = .failed .rangeViolation := by
  refine ⟨?_, fun x => rfl, ?_, ?_, rfl, rfl, rfl, rfl, rfl, rfl⟩
  · intro x
    have h : checkOneProp [] 1 [] (.mk "Range[10,0]" (.uint32Prop x)) =
        rangeIntegerBranch .u32 x ⟨true, true, ['1', '0'], ['0']⟩ false := rfl
    rw [h, range_u32_10_0]
  · intro x
    have h : checkOneProp [] 1 [] (.mk "Range[0,10]" (.int32Prop x)) =
        rangeIntegerBranch .i32 x ⟨true, true, ['0'], ['1', '0']⟩ false := rfl
    rw [h, range_i32_0_10_closed]
  · intro x
    have h : checkOneProp [] 1 [] (.mk "Range(0,10)" (.int32Prop x)) =
        rangeIntegerBranch .i32 x ⟨false, false, ['0'], ['1', '0']⟩ false := rfl
    rw [h, range_i32_0_10_open]

/-- Claim C8: the float path of the Range rule first asserts lower at most
upper (independently of the value), and then its comparison is exactly the
spec's formula: the bounds widened outward by the adaptive epsilon
clamp(max(1, abs lower, abs upper, abs value) * 1e-6, 1e-10, 1e-3),
inclusive or exclusive per flag against lower - epsilon and
upper + epsilon; consequently the tag for the closed range from 0.0 to 1.0
passes the value 1.0000001 (inside the widened bound) and fails the value
1.1.  Doubles are modelled as exact rationals; every margin here exceeds
double rounding error by many orders of magnitude. -/
theorem C8_float_range_epsilon :
    (∀ (L U : ℚ) (bli bui : Bool) (q : ℚ), (floatRangePred L U bli bui q = true) ↔
      ((if bli = true then L - epsilonSpec L U q ≤ q else L - epsilonSpec L U q < q) ∧
       (if bui = true then q ≤ U + epsilonSpec L U q else q < U + epsilonSpec L U q))) ∧
    (∀ q : ℚ, checkOneProp [] 1 [] (.mk "Range[2.0,1.0]" (.doubleProp q)) =
      .failed .rangeLowerLeUpperFloat) ∧
    checkOneProp [] 1 [] (.mk "Range[0.0,1.0]" (.doubleProp (10000001 / 10000000))) = .passed ∧
    checkOneProp [] 1 [] (.mk "Range[0.0,1.0]" (.doubleProp (11 / 10))) = .failed .rangeViolation := by
  refine ⟨?_, ?_, ?_, ?_⟩
  · intro L U bli bui q
    simp only [floatRangePred, epsilonSpec, fmax_eq_max, fabs_eq_abs]
    rw [fclamp_eq_min_max _ _ _ (by norm_num)]
    cases bli <;> cases bui <;>
      simp [Bool.and_eq_true, decide_eq_true_eq, ge_iff_le]
  · intro q
    have h : checkOneProp [] 1 [] (.mk "Range[2.0,1.0]" (.doubleProp q)) =
        rangeFloatBranch (.doubleProp q) ⟨true, true, "2.0".data, "1.0".data⟩ := rfl
    rw [h]
    simp only [rangeFloatBranch, atod_twoPointZero, atod_onePointZero]
    norm_num
  · rw [floatPipe_0_1]
    norm_num [floatRangePred, fmax, fabs, fclamp]
  · rw [floatPipe_0_1]
    norm_num [floatRangePred, fmax, fabs, fclamp]

/-- Claim C9: a custom invariant function that matches the documented
zero-argument boolean signature (NumParms one, boolean return) but is not
declared const is rejected as a configuration error with ProcessEvent
never reached (the recorded invocation flag is false), on the tag-fallback
path and on the method-tagged path alike; through the full dispatcher the
const failure is what a field naming such a function reports. -/
theorem C9_const_required (f : UEFunc) (hconst : f.isConst = false)
    (_hparm : f.numParms = 1) (_hret : f.returnsBool = true) :
    invokeFieldPathFunction f = (.failed .fnMustBeConst, false) ∧
    checkTaggedFunc f = (.failed .methodMustBeConst, false) ∧
    (f.name = "IsStateConsistent" →
      checkOneProp [] 1 [f] (.mk "IsStateConsistent" .structProp) = .failed .fnMustBeConst) := by
  refine ⟨?_, ?_, ?_⟩
  · simp [invokeFieldPathFunction, hconst]
  · simp [checkTaggedFunc, hconst]
  · intro hn
    have step : checkOneProp [] 1 [f] (.mk "IsStateConsistent" .structProp) =
        (customPathCheck [f] "IsStateConsistent").fst := rfl
    have hfind : fstringEqCI f.name "IsStateConsistent" = true := by rw [hn]; rfl
    rw [step]
    simp [customPathCheck, findFunctionByName, List.find?, hfind, invokeFieldPathFunction, hconst]

/-- Witness for claim C9, at a concrete non-const function with the
documented signature. -/
theorem C9_const_required_witness :
    invokeFieldPathFunction ⟨"IsStateConsistent", false, 1, true, true, false⟩ =
      (.failed .fnMustBeConst, false) ∧
    checkTaggedFunc ⟨"IsStateConsistent", false, 1, true, true, false⟩ =
      (.failed .methodMustBeConst, false) ∧
    checkOneProp [] 1 [⟨"IsStateConsistent", false, 1, true, true, false⟩]
      (.mk "IsStateConsistent" .structProp) = .failed .fnMustBeConst := by
  obtain ⟨a, b, c⟩ :=
    C9_const_required ⟨"IsStateConsistent", false, 1, true, true, false⟩ rfl rfl rfl
  exact ⟨a, b, c rfl⟩

/-- Claim C10: the ID rule on any non-integer field kind and the four sign
rules on any non-numeric field kind never silently pass - the kind
dispatch helper returns false, so the pass fails fatally - but the message
that fires is the same data-violation message a failing value of that rule
produces (idViolation, gte0Violation and so on), not a distinct
configuration-error message. -/
theorem C10_kind_mismatch_reported_as_data_violation :
    (∀ v : PropVal, TestIntegerProperty v (fun _ _ => true) = false →
      checkOneProp [] 1 [] (.mk "ID" v) = .failed .idViolation) ∧
    (∀ v : PropVal, TestArithmeticProperty v (fun _ _ => true) (fun _ => true) = false →
      checkOneProp [] 1 [] (.mk "Gte0" v) = .failed .gte0Violation ∧
      checkOneProp [] 1 [] (.mk "Gt0" v) = .failed .gt0Violation ∧
      checkOneProp [] 1 [] (.mk "Lte0" v) = .failed .lte0Violation ∧
      checkOneProp [] 1 [] (.mk "Lt0" v) = .failed .lt0Violation) ∧
    checkOneProp [] 1 [] (.mk "ID" (.int32Prop (-1))) = .failed .idViolation ∧
    checkOneProp [] 1 [] (.mk "Gte0" (.int32Prop (-3))) = .failed .gte0Violation := by
  refine ⟨?_, ?_, rfl, rfl⟩
  · intro v h
    cases v <;> first
      | rfl
      | (exfalso; simp [TestIntegerProperty] at h)
  · intro v h
    cases v <;> first
      | exact ⟨rfl, rfl, rfl, rfl⟩
      | (exfalso; simp [TestArithmeticProperty, TestIntegerProperty] at h)

/-- Witness for claim C10, at a boolean field tagged ID and an identifier
field tagged Gte0. -/
theorem C10_kind_mismatch_witness :
    checkOneProp [] 1 [] (.mk "ID" (.boolProp true)) = .failed .idViolation ∧
    checkOneProp [] 1 [] (.mk "Gte0" (.nameProp false)) = .failed .gte0Violation :=
  ⟨C10_kind_mismatch_reported_as_data_violation.1 (.boolProp true) rfl,
   (C10_kind_mismatch_reported_as_data_violation.2.1 (.nameProp false) rfl).1⟩

end SkyLifeguard
